import Mathlib

/-!
Verification of `sql_inserts.py`, a one-shot script that generates synthetic
relational rows (customers, products, orders, order items, payments,
shipments) and prints SQL INSERT statements.

Modelling conventions for the shallow embedding:

* The Python global `random` module is modelled by a stream `RS := Nat → Nat`
  of raw draws, threaded explicitly through the generators in the order the
  source consumes them.  `randint a b` maps a raw draw `r` to
  `a + r % (b + 1 - a)`; `random.choice l` indexes `l` at `r % l.length` and
  raises `IndexError` on an empty list, modelled by `Option`.
* The injected `faker` provider is modelled by an oracle `Faker` giving, for
  each faker method used by the source, the string returned by its i-th call
  inside one generator.
* Python values appearing in rows are `int`, `str` and `float`.  Every float
  the source produces is `round(randint(a, b) / 100, 2)` with `b ≤ 9999`,
  i.e. an exact multiple of 1/100 with at most four significant digits, so
  it is carried as its number of cents (`PyVal.float2`), and `pyRepr` prints
  the exact shortest decimal form that the CPython `repr` prints for such a
  float.
* `repr` of a Python `str` follows the CPython algorithm: quote selection
  (double quotes when the string holds a single quote and no double quote),
  backslash escapes for the quote, backslash, `\n`, `\r`, `\t`, and `\xhh`
  for non-printable code points; printability is modelled exactly on the
  Latin-1 range used by the source (`c < 0x20` or `0x7f ≤ c ≤ 0xa0`
  non-printable, larger code points treated as printable).
-/

namespace SqlInserts

/-- A stream of raw pseudo-random draws: the process-local `random` state. -/
abbrev RS := Nat → Nat

/-- Take one draw from the stream and return the advanced stream. -/
def RS.next (g : RS) : Nat × RS := (g 0, fun i => g (i + 1))

/-- Python `random.randint(a, b)`: a uniform integer in `[a, b]`. -/
def pyrandint (a b : Nat) (g : RS) : Nat × RS :=
  let (r, g1) := RS.next g
  (a + r % (b + 1 - a), g1)

/-- Python `random.choice(l)`: a uniform element of `l`; raises
(`none`) on an empty list. -/
def pychoice {α : Type} (l : List α) (g : RS) : Option (α × RS) :=
  let (r, g1) := RS.next g
  match l[r % l.length]? with
  | none => none
  | some a => some (a, g1)

/-- Thread a state through a list, as a Python list comprehension whose body
uses the global random state does. -/
def mapS {α β σ : Type} (f : α → σ → β × σ) : List α → σ → List β × σ
  | [], s => ([], s)
  | a :: as, s =>
    let (b, s1) := f a s
    let (bs, s2) := mapS f as s1
    (b :: bs, s2)

/-- Thread a state through a list where each step may raise. -/
def mapSO {α β σ : Type} (f : α → σ → Option (β × σ)) :
    List α → σ → Option (List β × σ)
  | [], s => some ([], s)
  | a :: as, s =>
    (f a s).bind fun r =>
      (mapSO f as r.2).map fun rest => (r.1 :: rest.1, rest.2)

/-- Oracle for the injected fake-data provider: the string the i-th call of
each faker method returns. -/
structure Faker where
  first_name : Nat → String
  last_name : Nat → String
  email : Nat → String
  phone_number : Nat → String
  text50 : Nat → String
  ecommerce_name : Nat → String
  address : Nat → String

/-- A Python scalar value as it occurs in the generated rows.  `float2 c`
is the float with exact value `c / 100` (all floats in this program arise
from `round(randint(a, b) / 100, 2)` with `a ≥ 100`, `b ≤ 9999`). -/
inductive PyVal where
  | int : Int → PyVal
  | str : String → PyVal
  | float2 : Nat → PyVal
deriving DecidableEq

/-- The single-quote character. -/
def squote : Char := Char.ofNat 39

/-- The double-quote character. -/
def dquote : Char := Char.ofNat 34

/-- Lowercase hexadecimal digit. -/
def hexDigit (n : Nat) : Char :=
  if n < 10 then Char.ofNat (48 + n) else Char.ofNat (87 + n)

/-- Two lowercase hexadecimal digits, as in CPython `\xhh` escapes. -/
def hex2 (n : Nat) : List Char := [hexDigit (n / 16 % 16), hexDigit (n % 16)]

/-- CPython `repr` of one character of a `str`, given the chosen quote. -/
def pyReprChar (q : Char) (c : Char) : List Char :=
  if c = q ∨ c = '\\' then ['\\', c]
  else if c = '\t' then ['\\', 't']
  else if c = '\n' then ['\\', 'n']
  else if c = '\r' then ['\\', 'r']
  else if c.toNat < 0x20 ∨ (0x7f ≤ c.toNat ∧ c.toNat ≤ 0xa0) then
    '\\' :: 'x' :: hex2 c.toNat
  else [c]

/-- CPython `repr` of a `str`: single quotes, switching to double quotes
when the string holds a single quote and no double quote. -/
def pyReprStr (s : String) : String :=
  let q : Char :=
    if s.data.contains squote && !s.data.contains dquote then dquote
    else squote
  String.mk (q :: (s.data.flatMap (pyReprChar q) ++ [q]))

/-- CPython `repr` of the float with exact value `c / 100` (at most four
significant digits): the shortest round-tripping decimal. -/
def reprFloat2 (c : Nat) : String :=
  let whole := toString (c / 100)
  let frac := c % 100
  if frac = 0 then whole ++ ".0"
  else if frac % 10 = 0 then whole ++ "." ++ toString (frac / 10)
  else if frac < 10 then whole ++ ".0" ++ toString frac
  else whole ++ "." ++ toString frac

/-- Python `repr` on the scalar values occurring in rows. -/
def pyRepr : PyVal → String
  | .int i => toString i
  | .str s => pyReprStr s
  | .float2 c => reprFloat2 c

/-- One row: the reprs of its values, comma separated, in parentheses. -/
def sql_row (row : List PyVal) : String :=
  "(" ++ String.intercalate ", " (row.map pyRepr) ++ ")"

/-- All rows, joined by a comma, a newline and two spaces. -/
def sql_values (values : List (List PyVal)) : String :=
  String.intercalate ",\n  " (values.map sql_row)

/-- `create_sql_insert(table, columns, values)` from the source. -/
def create_sql_insert (table columns : String) (values : List (List PyVal)) :
    String :=
  "INSERT INTO " ++ table ++ " (" ++ columns ++ ") VALUES\n  "
    ++ sql_values values ++ ";"

/-- `get_customers(n)` from the source: n rows of four faker strings. -/
def get_customers (n : Nat) (fk : Faker) :
    List (String × String × String × String) :=
  (List.range n).map fun i =>
    (fk.first_name i, fk.last_name i, fk.email i, fk.phone_number i)

/-- `get_products(n)` from the source: n rows of name, description, price in
cents (`randint(100, 9999)`), stock (`randint(1, 20)`). -/
def get_products (n : Nat) (fk : Faker) (g : RS) :
    List (String × String × Nat × Nat) × RS :=
  mapS
    (fun i g =>
      let (cents, g1) := pyrandint 100 9999 g
      let (stock, g2) := pyrandint 1 20 g1
      ((fk.ecommerce_name i, fk.text50 i, cents, stock), g2))
    (List.range n) g

/-- `get_orders(n, customer_ids)` from the source: n rows
`(choice(customer_ids), "pending")`. -/
def get_orders (n : Nat) (customer_ids : List Int) (g : RS) :
    Option (List (Int × String) × RS) :=
  mapSO
    (fun _ g => (pychoice customer_ids g).map fun c => ((c.1, "pending"), c.2))
    (List.range n) g

/-- The inner loop of `get_order_items` for one order id:
`randint(1, 3)` items, each `(order_id, choice(product_ids),
randint(1, 5), round(randint(500, 2000) / 100, 2))`. -/
def order_items_for (product_ids : List Int) (oid : Int) (g : RS) :
    Option (List (Int × Int × Nat × Nat) × RS) :=
  let (k, g1) := pyrandint 1 3 g
  mapSO
    (fun _ g =>
      (pychoice product_ids g).map fun c =>
        let (q, g3) := pyrandint 1 5 c.2
        let (cents, g4) := pyrandint 500 2000 g3
        ((oid, c.1, q, cents), g4))
    (List.range k) g1

/-- `get_order_items(order_ids, product_ids)` from the source: the items of
each order id in turn, appended into one list. -/
def get_order_items (order_ids product_ids : List Int) (g : RS) :
    Option (List (Int × Int × Nat × Nat) × RS) :=
  match order_ids with
  | [] => some ([], g)
  | oid :: rest =>
    (order_items_for product_ids oid g).bind fun p =>
      (get_order_items rest product_ids p.2).map fun q => (p.1 ++ q.1, q.2)

/-- `get_payments(order_ids)` from the source: one row per order id,
`(order_id, round(randint(1000, 5000) / 100, 2), choice(methods),
"completed")`. -/
def get_payments (order_ids : List Int) (g : RS) :
    Option (List (Int × Nat × String × String) × RS) :=
  mapSO
    (fun oid g =>
      let (cents, g1) := pyrandint 1000 5000 g
      (pychoice ["credit_card", "paypal", "bank_transfer"] g1).map fun m =>
        ((oid, cents, m.1, "completed"), m.2))
    order_ids g

/-- `get_shipments(order_ids)` from the source: one row per order id,
`(order_id, faker.address().replace("\n", ", "), choice(statuses))`. -/
def get_shipments (order_ids : List Int) (fk : Faker) (g : RS) :
    Option (List (Int × String × String) × RS) :=
  mapSO
    (fun p g =>
      let addr := (fk.address p.1).replace "\n" ", "
      (pychoice ["processing", "shipped", "delivered"] g).map fun st =>
        ((p.2, addr, st.1), st.2))
    order_ids.enum g

/-- `list(range(1, n + 1))`: the simulated sequential identifiers. -/
def simIds (n : Nat) : List Int := (List.range n).map fun i => (i : Int) + 1

/-- Tuple-to-row conversions: how each generated tuple reaches `repr`. -/
def customerRow : String × String × String × String → List PyVal :=
  fun r => [.str r.1, .str r.2.1, .str r.2.2.1, .str r.2.2.2]

def productRow : String × String × Nat × Nat → List PyVal :=
  fun r => [.str r.1, .str r.2.1, .float2 r.2.2.1, .int r.2.2.2]

def orderRow : Int × String → List PyVal :=
  fun r => [.int r.1, .str r.2]

def orderItemRow : Int × Int × Nat × Nat → List PyVal :=
  fun r => [.int r.1, .int r.2.1, .int r.2.2.1, .float2 r.2.2.2]

def paymentRow : Int × Nat × String × String → List PyVal :=
  fun r => [.int r.1, .float2 r.2.1, .str r.2.2.1, .str r.2.2.2]

def shipmentRow : Int × String × String → List PyVal :=
  fun r => [.int r.1, .str r.2.1, .str r.2.2]

/-- `main()` from the source: the sequence of strings passed to `print`,
in order; `none` models an uncaught exception. -/
def main (fk : Faker) (g : RS) : Option (List String) :=
  let customers := get_customers 10 fk
  let pr := get_products 8 fk g
  let customer_ids := simIds 10
  let product_ids := simIds 8
  let order_ids := simIds 15
  (get_orders 15 customer_ids pr.2).bind fun o =>
    (get_order_items order_ids product_ids o.2).bind fun oi =>
      (get_payments order_ids oi.2).bind fun pay =>
        (get_shipments order_ids fk pay.2).map fun sh =>
          ["-- Insertion des clients",
           create_sql_insert "customers"
             "first_name, last_name, email, phone"
             (customers.map customerRow),
           "\n-- Insertion des produits",
           create_sql_insert "products"
             "name, description, price, stock_quantity"
             (pr.1.map productRow),
           "\n-- Insertion des commandes",
           create_sql_insert "orders" "customer_id, status"
             (o.1.map orderRow),
           "\n-- Insertion des items de commande",
           create_sql_insert "order_items"
             "order_id, product_id, quantity, unit_price"
             (oi.1.map orderItemRow),
           "\n-- Insertion des paiements",
           create_sql_insert "payments" "order_id, amount, method, status"
             (pay.1.map paymentRow),
           "\n-- Insertion des livraisons",
           create_sql_insert "shipments" "order_id, delivery_address, status"
             (sh.1.map shipmentRow)]

/-! Concrete instances used by witnesses and counterexamples. -/

/-- A concrete random stream. -/
def rng0 : RS := fun _ => 0

/-- A concrete faker oracle. -/
def fkC : Faker :=
  ⟨fun _ => "F", fun _ => "L", fun _ => "E", fun _ => "P",
   fun _ => "D", fun _ => "N", fun _ => "A"⟩

/-- Substring test used to talk about what a line of output mentions. -/
def strHasSub (s pat : String) : Bool :=
  s.data.tails.any fun t => pat.data.isPrefixOf t

/-! Helper lemmas. -/

theorem sdata_append (a b : String) : (a ++ b).data = a.data ++ b.data := by
  cases a; cases b; rfl

theorem sapp_assoc (a b c : String) : a ++ b ++ c = a ++ (b ++ c) := by
  cases a; cases b; cases c
  show String.mk _ = String.mk _
  simp [String.append, List.append_assoc]

theorem mapSO_length {α β σ : Type} (f : α → σ → Option (β × σ))
    (l : List α) (s : σ) (out : List β × σ) (h : mapSO f l s = some out) :
    out.1.length = l.length := by
  induction l generalizing s out with
  | nil =>
    simp [mapSO] at h
    simp [← h]
  | cons a as ih =>
    simp only [mapSO] at h
    cases h1 : f a s with
    | none => rw [h1] at h; simp at h
    | some r =>
      rw [h1] at h
      simp only [Option.some_bind] at h
      cases h2 : mapSO f as r.2 with
      | none => rw [h2] at h; simp at h
      | some rest =>
        rw [h2] at h
        simp only [Option.map_some'] at h
        cases h
        simp [ih r.2 rest h2]

theorem mapSO_some {α β σ : Type} (f : α → σ → Option (β × σ))
    (l : List α) (s : σ) (hf : ∀ a g, ∃ r, f a g = some r) :
    ∃ out, mapSO f l s = some out := by
  induction l generalizing s with
  | nil => exact ⟨([], s), rfl⟩
  | cons a as ih =>
    obtain ⟨r, hr⟩ := hf a s
    obtain ⟨out, hout⟩ := ih r.2
    exact ⟨(r.1 :: out.1, out.2), by simp [mapSO, hr, hout]⟩

theorem mapSO_forall {α β σ : Type} (f : α → σ → Option (β × σ))
    (P : β → Prop) (hf : ∀ a g b g1, f a g = some (b, g1) → P b)
    (l : List α) (s : σ) (out : List β × σ) (h : mapSO f l s = some out) :
    ∀ b ∈ out.1, P b := by
  induction l generalizing s out with
  | nil =>
    simp [mapSO] at h
    simp [← h]
  | cons a as ih =>
    simp only [mapSO] at h
    cases h1 : f a s with
    | none => rw [h1] at h; simp at h
    | some r =>
      rw [h1] at h
      simp only [Option.some_bind] at h
      cases h2 : mapSO f as r.2 with
      | none => rw [h2] at h; simp at h
      | some rest =>
        rw [h2] at h
        simp only [Option.map_some'] at h
        cases h
        intro b hb
        rcases List.mem_cons.mp hb with hb | hb
        · exact hb ▸ hf a s r.1 r.2 (by rw [h1])
        · exact ih r.2 rest h2 b hb

theorem mapS_length {α β σ : Type} (f : α → σ → β × σ)
    (l : List α) (s : σ) : (mapS f l s).1.length = l.length := by
  induction l generalizing s with
  | nil => rfl
  | cons a as ih => simp [mapS, ih]

theorem pychoice_some {α : Type} (l : List α) (g : RS) (hl : l ≠ []) :
    ∃ r, pychoice l g = some r := by
  have hlen : 0 < l.length := List.length_pos.mpr hl
  have hlt : g 0 % l.length < l.length := Nat.mod_lt _ hlen
  cases hq : l[g 0 % l.length]? with
  | none =>
    have := List.getElem?_eq_none_iff.mp hq
    omega
  | some a =>
    exact ⟨(a, fun i => g (i + 1)), by simp [pychoice, RS.next, hq]⟩

theorem map_some_exists {α β : Type} (F : α → β) (o : Option α) (r : α)
    (h : o = some r) : ∃ y, o.map F = some y := ⟨F r, by rw [h]; rfl⟩

theorem order_items_for_length (pids : List Int) (oid : Int) (g : RS)
    (out : List (Int × Int × Nat × Nat) × RS)
    (h : order_items_for pids oid g = some out) :
    1 ≤ out.1.length ∧ out.1.length ≤ 3 := by
  simp only [order_items_for, pyrandint, RS.next] at h
  have hlen := mapSO_length _ _ _ _ h
  rw [List.length_range] at hlen
  have : g 0 % (3 + 1 - 1) < 3 := Nat.mod_lt _ (by norm_num)
  omega

theorem order_items_for_some (pids : List Int) (hp : pids ≠ []) (oid : Int)
    (g : RS) : ∃ out, order_items_for pids oid g = some out := by
  simp only [order_items_for, pyrandint, RS.next]
  apply mapSO_some
  intro a g2
  obtain ⟨r, hr⟩ := pychoice_some pids g2 hp
  exact map_some_exists _ _ _ hr

theorem get_order_items_length (oids pids : List Int) (g : RS)
    (out : List (Int × Int × Nat × Nat) × RS)
    (h : get_order_items oids pids g = some out) :
    oids.length ≤ out.1.length ∧ out.1.length ≤ 3 * oids.length := by
  induction oids generalizing g out with
  | nil =>
    simp [get_order_items] at h
    simp [← h]
  | cons oid rest ih =>
    simp only [get_order_items] at h
    cases h1 : order_items_for pids oid g with
    | none => rw [h1] at h; simp at h
    | some p =>
      rw [h1] at h
      simp only [Option.some_bind] at h
      cases h2 : get_order_items rest pids p.2 with
      | none => rw [h2] at h; simp at h
      | some q =>
        rw [h2] at h
        simp only [Option.map_some'] at h
        cases h
        have hb := order_items_for_length pids oid g p h1
        have hr := ih p.2 q h2
        simp only [List.length_append, List.length_cons]
        omega

theorem get_order_items_some (oids pids : List Int) (g : RS) (hp : pids ≠ []) :
    ∃ out, get_order_items oids pids g = some out := by
  induction oids generalizing g with
  | nil => exact ⟨([], g), rfl⟩
  | cons oid rest ih =>
    obtain ⟨p, hp1⟩ := order_items_for_some pids hp oid g
    obtain ⟨q, hq⟩ := ih p.2
    exact ⟨(p.1 ++ q.1, q.2), by simp [get_order_items, hp1, hq]⟩

theorem get_orders_some (n : Nat) (cids : List Int) (g : RS)
    (h : cids ≠ [] ∨ n = 0) : ∃ out, get_orders n cids g = some out := by
  rcases h with h | h
  · apply mapSO_some
    intro a g2
    obtain ⟨r, hr⟩ := pychoice_some cids g2 h
    exact map_some_exists _ _ _ hr
  · subst h
    exact ⟨([], g), rfl⟩

theorem get_payments_some (oids : List Int) (g : RS) :
    ∃ out, get_payments oids g = some out := by
  apply mapSO_some
  intro oid g2
  simp only [pyrandint, RS.next]
  obtain ⟨r, hr⟩ :=
    pychoice_some ["credit_card", "paypal", "bank_transfer"]
      (fun i => g2 (i + 1)) (List.cons_ne_nil _ _)
  exact map_some_exists _ _ _ hr

theorem get_shipments_some (oids : List Int) (fk : Faker) (g : RS) :
    ∃ out, get_shipments oids fk g = some out := by
  apply mapSO_some
  intro p g2
  dsimp only
  obtain ⟨r, hr⟩ :=
    pychoice_some ["processing", "shipped", "delivered"] g2
      (List.cons_ne_nil _ _)
  exact map_some_exists _ _ _ hr

theorem sapp_empty (a : String) : a ++ "" = a := by
  cases a
  show String.mk _ = String.mk _
  simp [String.append]

/-! The claims. -/

/-- C1: the spec requires each scalar to be rendered as a SQL literal —
strings quoted and escaped so that fields holding characters that need
escaping never break statement syntax.  The code instead calls Python
`repr`: on a string holding a single quote (and no double quote) it emits a
double-quoted Python literal, which is not a SQL string literal, so the
statement syntax is broken.  This theorem evaluates the formatter at such
a failing input. -/
theorem create_sql_insert_breaks_on_quote :
    create_sql_insert "customers" "last_name" [[.str "O\x27Brien"]] =
      "INSERT INTO customers (last_name) VALUES\n  (\"O\x27Brien\");" := rfl

/-- C2: `create_sql_insert("t", "a, b", [(1, "x")])` returns exactly
`INSERT INTO t (a, b) VALUES`, a newline, two spaces, and the tuple of 1 and single-quoted x, closed by a semicolon. -/
theorem create_sql_insert_scenario :
    create_sql_insert "t" "a, b" [[.int 1, .str "x"]] =
      "INSERT INTO t (a, b) VALUES\n  (1, \x27x\x27);" := rfl

/-- C3: for every table name, column string and row sequence (the empty one
included), the output starts with `INSERT INTO <table> (<columns>) VALUES`
and ends with `;`. -/
theorem create_sql_insert_starts_ends (t c : String)
    (v : List (List PyVal)) :
    (∃ rest, create_sql_insert t c v =
      ("INSERT INTO " ++ t ++ " (" ++ c ++ ") VALUES") ++ rest) ∧
    ∃ front, create_sql_insert t c v = front ++ ";" := by
  constructor
  · refine ⟨"\n  " ++ sql_values v ++ ";", ?_⟩
    show "INSERT INTO " ++ t ++ " (" ++ c ++ ") VALUES\n  "
        ++ sql_values v ++ ";" = _
    simp only [sapp_assoc]
    rw [← sapp_assoc ") VALUES" "\n  " (sql_values v ++ ";")]
    rw [show (") VALUES" : String) ++ "\n  " = ") VALUES\n  " from rfl]
  · exact ⟨"INSERT INTO " ++ t ++ " (" ++ c ++ ") VALUES\n  "
      ++ sql_values v, rfl⟩

/-- C4: on an empty row sequence the formatter still returns, yielding
`INSERT INTO <table> (<columns>) VALUES`, a newline, two spaces and `;` —
the empty VALUES clause; non-emptiness is only a caller precondition. -/
theorem create_sql_insert_empty_rows (t c : String) :
    create_sql_insert t c [] =
      "INSERT INTO " ++ t ++ " (" ++ c ++ ") VALUES\n  ;" := by
  show "INSERT INTO " ++ t ++ " (" ++ c ++ ") VALUES\n  "
      ++ sql_values [] ++ ";" = _
  rw [show sql_values [] = "" from rfl, sapp_empty]
  simp only [sapp_assoc]
  rw [show (") VALUES\n  " : String) ++ ";" = ") VALUES\n  ;" from rfl]

/-- C5: `get_customers` and `get_products` return exactly n rows;
`get_orders`, whenever it returns, returns exactly n rows;
`get_order_items`, whenever it returns, returns between 1 and 3 items per
order id, so between `len order_ids` and `3 * len order_ids` in total;
n = 0 or an empty order-id list gives the empty sequence. -/
theorem generator_row_counts (n : Nat) (fk : Faker)
    (cids pids oids : List Int) (g : RS) :
    (get_customers n fk).length = n ∧
    (get_products n fk g).1.length = n ∧
    (∀ out, get_orders n cids g = some out → out.1.length = n) ∧
    (∀ out, get_order_items oids pids g = some out →
      oids.length ≤ out.1.length ∧ out.1.length ≤ 3 * oids.length) ∧
    get_customers 0 fk = [] ∧
    get_orders 0 cids g = some ([], g) ∧
    get_order_items [] pids g = some ([], g) := by
  refine ⟨?_, ?_, ?_, ?_, rfl, rfl, rfl⟩
  · simp [get_customers]
  · simp [get_products, mapS_length]
  · intro out h
    have := mapSO_length _ _ _ _ h
    simpa using this
  · intro out h
    exact get_order_items_length oids pids g out h

set_option maxRecDepth 4000 in
theorem generator_row_counts_witness :
    (([((5 : Int), "pending"), ((5 : Int), "pending")],
        fun i => rng0 (i + 2)) : List (Int × String) × RS).1.length = 2 :=
  (generator_row_counts 2 fkC [5] [4] [1] rng0).2.2.1
    ([((5 : Int), "pending"), ((5 : Int), "pending")], fun i => rng0 (i + 2))
    rfl

/-- C6 counterexample: the claim says every generator returns normally for
every input id list, empty ones included; but `get_orders` with n = 1 and an
empty `customer_ids` hits `random.choice([])`, an uncaught `IndexError`
(modelled by `none`). -/
theorem get_orders_empty_ids_fails : get_orders 1 [] rng0 = none := rfl

/-- C6 (amended): generation has no error conditions apart from
`random.choice` on an empty id list: `get_orders` returns normally whenever
its customer-id list is non-empty or n = 0, `get_order_items` whenever its
product-id list is non-empty or its order-id list is empty, and
`get_payments` and `get_shipments` always (their `choice` draws from fixed
non-empty literal lists); `get_customers` and `get_products` are total. -/
theorem generators_return_normally (n : Nat) (cids pids oids : List Int)
    (fk : Faker) (g : RS) :
    (cids ≠ [] ∨ n = 0 → ∃ out, get_orders n cids g = some out) ∧
    (pids ≠ [] ∨ oids = [] → ∃ out, get_order_items oids pids g = some out) ∧
    (∃ out, get_payments oids g = some out) ∧
    ∃ out, get_shipments oids fk g = some out := by
  refine ⟨fun h => get_orders_some n cids g h, fun h => ?_,
    get_payments_some oids g, get_shipments_some oids fk g⟩
  rcases h with h | h
  · exact get_order_items_some oids pids g h
  · subst h
    exact ⟨([], g), rfl⟩

theorem generators_return_normally_witness :
    (∃ out, get_orders 2 [5] rng0 = some out) ∧
    ∃ out, get_order_items [1] [4] rng0 = some out :=
  ⟨(generators_return_normally 2 [5] [4] [1] fkC rng0).1
      (Or.inl (List.cons_ne_nil _ _)),
    (generators_return_normally 2 [5] [4] [1] fkC rng0).2.1
      (Or.inl (List.cons_ne_nil _ _))⟩

/-- C7: the formatter is deterministic — equal table names, column strings
and row sequences give equal output strings; it draws no randomness. -/
theorem create_sql_insert_deterministic (t1 t2 c1 c2 : String)
    (v1 v2 : List (List PyVal)) (ht : t1 = t2) (hc : c1 = c2)
    (hv : v1 = v2) :
    create_sql_insert t1 c1 v1 = create_sql_insert t2 c2 v2 := by
  rw [ht, hc, hv]

theorem create_sql_insert_deterministic_witness :
    create_sql_insert "t" "a" [[PyVal.int 0]] =
      create_sql_insert "t" "a" [[PyVal.int 0]] :=
  create_sql_insert_deterministic "t" "t" "a" "a" [[PyVal.int 0]]
    [[PyVal.int 0]] rfl rfl rfl

/-- C8: every row `get_orders` produces has status `"pending"`, whatever n,
the customer-id list and the random draws. -/
theorem get_orders_status_pending (n : Nat) (cids : List Int) (g : RS)
    (out : List (Int × String) × RS) (h : get_orders n cids g = some out) :
    ∀ row ∈ out.1, row.2 = "pending" := by
  apply mapSO_forall _ (fun row => row.2 = "pending") _ _ _ _ h
  intro a g2 b g3 hf
  cases hc : pychoice cids g2 with
  | none => rw [hc] at hf; simp at hf
  | some c =>
    rw [hc] at hf
    simp only [Option.map_some'] at hf
    cases hf
    rfl

set_option maxRecDepth 4000 in
theorem get_orders_status_pending_witness :
    (((5 : Int), "pending") : Int × String).2 = "pending" :=
  get_orders_status_pending 2 [5] rng0
    ([((5 : Int), "pending"), ((5 : Int), "pending")],
      fun i => rng0 (i + 2)) rfl ((5 : Int), "pending")
    (List.mem_cons_self _ _)

/-- C10: every row `get_payments` produces has status the constant
`"completed"` — never sampled, never varying, for every order-id list and
every random draw. -/
theorem get_payments_status_completed (oids : List Int) (g : RS)
    (out : List (Int × Nat × String × String) × RS)
    (h : get_payments oids g = some out) :
    ∀ row ∈ out.1, row.2.2.2 = "completed" := by
  apply mapSO_forall _ (fun row => row.2.2.2 = "completed") _ _ _ _ h
  intro a g2 b g3 hf
  simp only [pyrandint, RS.next] at hf
  cases hc : pychoice ["credit_card", "paypal", "bank_transfer"]
      (fun i => g2 (i + 1)) with
  | none => rw [hc] at hf; simp at hf
  | some m =>
    rw [hc] at hf
    simp only [Option.map_some'] at hf
    cases hf
    rfl

set_option maxRecDepth 4000 in
theorem get_payments_status_completed_witness :
    (((1 : Int), (1000 : Nat), "credit_card", "completed") :
        Int × Nat × String × String).2.2.2 = "completed" :=
  get_payments_status_completed [1] rng0
    ([((1 : Int), (1000 : Nat), "credit_card", "completed")],
      fun i => rng0 (i + 2)) rfl
    ((1 : Int), (1000 : Nat), "credit_card", "completed")
    (List.mem_cons_self _ _)

set_option maxRecDepth 40000 in
/-- C9 counterexample: the claim says each INSERT is preceded by a comment
line naming the table; in the actual output the line before the customers
INSERT is `-- Insertion des clients`, a French description that does not
contain the table name `customers`. -/
theorem main_comment_not_table_name :
    ((main fkC rng0).getD []).get? 0 = some "-- Insertion des clients" ∧
    strHasSub "-- Insertion des clients" "customers" = false ∧
    ((main fkC rng0).getD []).get? 1 =
      some (create_sql_insert "customers"
        "first_name, last_name, email, phone"
        ((get_customers 10 fkC).map customerRow)) := by
  refine ⟨by decide, by decide, by decide⟩

/-- C9 (amended): the entry routine always succeeds and prints exactly one
INSERT statement per table, in the fixed order customers → products →
orders → order_items → payments → shipments, each preceded by a comment
line that describes the table in French (it does not contain the SQL table
name itself). -/
theorem main_output_structure (fk : Faker) (g : RS) :
    ∃ r1 r2 r3 r4 r5 r6, main fk g = some
      ["-- Insertion des clients",
       create_sql_insert "customers" "first_name, last_name, email, phone" r1,
       "\n-- Insertion des produits",
       create_sql_insert "products"
         "name, description, price, stock_quantity" r2,
       "\n-- Insertion des commandes",
       create_sql_insert "orders" "customer_id, status" r3,
       "\n-- Insertion des items de commande",
       create_sql_insert "order_items"
         "order_id, product_id, quantity, unit_price" r4,
       "\n-- Insertion des paiements",
       create_sql_insert "payments" "order_id, amount, method, status" r5,
       "\n-- Insertion des livraisons",
       create_sql_insert "shipments" "order_id, delivery_address, status"
         r6] := by
  obtain ⟨o, ho⟩ :=
    get_orders_some 15 (simIds 10) (get_products 8 fk g).2
      (Or.inl (by decide))
  obtain ⟨oi, hoi⟩ := get_order_items_some (simIds 15) (simIds 8) o.2
    (by decide)
  obtain ⟨pay, hpay⟩ := get_payments_some (simIds 15) oi.2
  obtain ⟨sh, hsh⟩ := get_shipments_some (simIds 15) fk pay.2
  refine ⟨(get_customers 10 fk).map customerRow,
    (get_products 8 fk g).1.map productRow, o.1.map orderRow,
    oi.1.map orderItemRow, pay.1.map paymentRow, sh.1.map shipmentRow, ?_⟩
  simp only [main, ho, hoi, hpay, hsh, Option.some_bind, Option.map_some']

end SqlInserts
